import Mathlib

/-!
Verification of the texture-draw batching core (`src/draw_textures.c`).

The C file keeps process-wide mutable state (the "last known" GPU state
fields, a fixed-capacity vertex buffer and its length counter `bufSize`)
and exposes two operations: `draw_textures_item` (submit one textured
quad, possibly flushing first) and `draw_textures_flush` (issue one GPU
draw call for the accumulated batch and reset the length counter).

Shallow embedding: C floats become `ℚ` (the code only ever compares them
bit-exactly and does field arithmetic on them), the global state becomes
an explicit `DTState` record threaded through the operations, and GPU
(OpenGL) calls become an emitted trace of `GLCmd` values.  The build-time
toggle `use_single_shader` is passed as an explicit boolean parameter.
-/

namespace DrawTextures

/-- RGBA color, as the `rgba` struct of the C code (four float fields). -/
structure rgba where
  r : ℚ
  g : ℚ
  b : ℚ
  a : ℚ
deriving DecidableEq

/-- 2-D rectangle, as the C `rect_2d` struct (x, y, width, height). -/
structure rect_2d where
  x : ℚ
  y : ℚ
  width : ℚ
  height : ℚ
deriving DecidableEq

/-- 3×3 affine transform matrix ("model-view"), as the C `matrix_3x3`. -/
structure matrix_3x3 where
  m00 : ℚ
  m01 : ℚ
  m02 : ℚ
  m10 : ℚ
  m11 : ℚ
  m12 : ℚ
  m20 : ℚ
  m21 : ℚ
  m22 : ℚ
deriving DecidableEq

/-- The logical composite operation.  The C code stores it as an `int`
whose named values (`source_atop`, …) come from a header outside this
slice; `other n` stands for any int that is none of the named values. -/
inductive CompositeOp where
  | source_atop
  | source_in
  | source_out
  | source_over
  | destination_atop
  | destination_in
  | destination_out
  | destination_over
  | lighter
  | x_or
  | copy
  | other (code : Int)
deriving DecidableEq

/-- The filter kind.  The C code stores it as an `int`; the three named
values (`FILTER_NONE`, `FILTER_LINEAR_ADD`, `FILTER_MULTIPLY`) come from
a header outside this slice; `other n` stands for any remaining int. -/
inductive FilterType where
  | filter_none
  | filter_linear_add
  | filter_multiply
  | other (code : Int)
deriving DecidableEq

/-- GPU blend factors used by the composite-operation switch. -/
inductive BlendFactor where
  | gl_zero
  | gl_one
  | gl_src_alpha
  | gl_dst_alpha
  | gl_one_minus_src_alpha
  | gl_one_minus_dst_alpha
deriving DecidableEq

/-- The two shader programs the flush stage can bind. -/
inductive ShaderProgram where
  | primary
  | linear_add
deriving DecidableEq

/-- Shader uniform locations written by the flush stage. -/
inductive UniformLoc where
  | draw_color
  | add_color
deriving DecidableEq

/-- Texture-parameter names set on the bound texture. -/
inductive TexPname where
  | min_filter
  | mag_filter
  | wrap_s
  | wrap_t
deriving DecidableEq

/-- Texture-parameter values set on the bound texture. -/
inductive TexParamVal where
  | linear
  | nearest
  | clamp_to_edge
deriving DecidableEq

/-- The two vertex-attribute streams submitted before the draw call. -/
inductive AttribKind where
  | vertex_coords
  | tex_coords
deriving DecidableEq

/-- One observable GPU (OpenGL) call issued by the flush stage. -/
inductive GLCmd where
  | blendFunc (sfactor dfactor : BlendFactor)
  | bindShader (sh : ShaderProgram)
  | uniform4f (loc : UniformLoc) (x y z w : ℚ)
  | activeTexture0
  | bindTexture (name : Int)
  | texParameterf (pname : TexPname) (v : TexParamVal)
  | vertexAttribPointer (attrib : AttribKind)
  | drawArrays (count : Int)
deriving DecidableEq

/-- One buffered quad entry: the C `bufobj` struct, 12 floats holding
three texture coordinates and three positions (one triangle). -/
structure bufobj where
  srcX1 : ℚ
  srcY1 : ℚ
  destX1 : ℚ
  destY1 : ℚ
  srcX2 : ℚ
  srcY2 : ℚ
  destX2 : ℚ
  destY2 : ℚ
  srcX3 : ℚ
  srcY3 : ℚ
  destX3 : ℚ
  destY3 : ℚ
deriving DecidableEq

/-- The zero-filled `bufobj`: C static storage is zero-initialized. -/
def bufobj.zero : bufobj :=
  ⟨0, 0, 0, 0, 0, 0, 0, 0, 0, 0, 0, 0⟩

/-- `MAX_BUFFER_SIZE` from the C file. -/
def MAX_BUFFER_SIZE : Int := 1024

/-- The process-wide mutable state of `draw_textures.c`: the five "last
known" GPU-state fields, the buffer length counter and the buffer
contents (a total map from slot index to entry, standing for the C
array; slots at or beyond `bufSize` are stale). -/
structure DTState where
  lastName : Int
  bufSize : Int
  lastOpacity : ℚ
  last_composite_op : CompositeOp
  last_filter_type : FilterType
  last_filter_color : rgba
  buffer : Int → bufobj

/-- The initial state, from the C static initializers: `lastName = -1`,
`bufSize = 0`, `lastOpacity = 1`, composite op and filter type hold the
int value 0 (whose enum identity lives outside this slice), and the
filter color is `{0,0,0,0}`. -/
def initState : DTState where
  lastName := -1
  bufSize := 0
  lastOpacity := 1
  last_composite_op := .other 0
  last_filter_type := .other 0
  last_filter_color := ⟨0, 0, 0, 0⟩
  buffer := fun _ => bufobj.zero

/-- Modelled from the spec: `rgba_equals` lives in a header outside this
slice; the spec fixes it as "exact (non-approximate) component-wise
comparison of two RGBA colors". -/
def rgba_equals (c1 c2 : rgba) : Bool :=
  decide (c1.r = c2.r ∧ c1.g = c2.g ∧ c1.b = c2.b ∧ c1.a = c2.a)

/-- Modelled from the spec: `matrix_3x3_multiply` lives outside this
slice; the spec fixes it as a pure function that transforms the four
corners of a rectangle by the 3×3 affine transform and returns the four
screen-space points `(x1,y1) … (x4,y4)` in a fixed corner order. -/
def matrix_3x3_multiply (m : matrix_3x3) (r : rect_2d) :
    ℚ × ℚ × ℚ × ℚ × ℚ × ℚ × ℚ × ℚ :=
  let tx := fun x y => m.m00 * x + m.m01 * y + m.m02
  let ty := fun x y => m.m10 * x + m.m11 * y + m.m12
  (tx r.x r.y, ty r.x r.y,
   tx (r.x + r.width) r.y, ty (r.x + r.width) r.y,
   tx (r.x + r.width) (r.y + r.height), ty (r.x + r.width) (r.y + r.height),
   tx r.x (r.y + r.height), ty r.x (r.y + r.height))

/-- The blend-factor switch of `draw_textures_flush` (lines 148–196):
maps the batch's composite operation to the `(sfactor, dfactor)` pair;
`lighter`, `x_or`, `copy` and the `default` case share one pair. -/
def blend_factors : CompositeOp → BlendFactor × BlendFactor
  | .source_atop => (.gl_dst_alpha, .gl_one_minus_src_alpha)
  | .source_in => (.gl_dst_alpha, .gl_zero)
  | .source_out => (.gl_one_minus_dst_alpha, .gl_zero)
  | .source_over => (.gl_one, .gl_one_minus_src_alpha)
  | .destination_atop => (.gl_dst_alpha, .gl_src_alpha)
  | .destination_in => (.gl_zero, .gl_src_alpha)
  | .destination_out => (.gl_one_minus_src_alpha, .gl_one_minus_src_alpha)
  | .destination_over => (.gl_dst_alpha, .gl_src_alpha)
  | .lighter => (.gl_one, .gl_one_minus_src_alpha)
  | .x_or => (.gl_one, .gl_one_minus_src_alpha)
  | .copy => (.gl_one, .gl_one_minus_src_alpha)
  | .other _ => (.gl_one, .gl_one_minus_src_alpha)

/-- The shader-selection block of `draw_textures_flush` (lines 199–218):
the commands it issues (shader bind and uniform writes).  When the
single-shader toggle is off and the filter type is none of the three
recognized values, no branch runs and no command is issued. -/
def shader_cmds (use_single_shader : Bool) (s : DTState) : List GLCmd :=
  if use_single_shader then
    [.bindShader .primary,
     .uniform4f .draw_color s.lastOpacity s.lastOpacity s.lastOpacity s.lastOpacity]
  else if s.last_filter_type = .filter_none then
    [.bindShader .primary,
     .uniform4f .draw_color s.lastOpacity s.lastOpacity s.lastOpacity s.lastOpacity]
  else if s.last_filter_type = .filter_linear_add then
    let r := s.last_filter_color.r * s.last_filter_color.a
    let g := s.last_filter_color.g * s.last_filter_color.a
    let b := s.last_filter_color.b * s.last_filter_color.a
    [.bindShader .linear_add,
     .uniform4f .add_color r g b 0,
     .uniform4f .draw_color s.lastOpacity s.lastOpacity s.lastOpacity s.lastOpacity]
  else if s.last_filter_type = .filter_multiply then
    [.bindShader .primary,
     .uniform4f .draw_color (s.last_filter_color.r * s.lastOpacity)
       (s.last_filter_color.g * s.lastOpacity)
       (s.last_filter_color.b * s.lastOpacity) s.lastOpacity]
  else []

/-- `draw_textures_flush` (lines 139–243): no-op when the buffer is
empty; when the batch opacity is positive, emits the blend-function
configuration, the shader commands, texture bind with its four fixed
sampling parameters, the two vertex-attribute streams and one draw call
over `3 * bufSize` vertices; in every non-empty case resets `bufSize`
to zero. -/
def draw_textures_flush (use_single_shader : Bool) (s : DTState) :
    DTState × List GLCmd :=
  if s.bufSize ≤ 0 then
    (s, [])
  else if s.lastOpacity > 0 then
    let fac := blend_factors s.last_composite_op
    ({ s with bufSize := 0 },
     .blendFunc fac.1 fac.2 ::
       shader_cmds use_single_shader s ++
       [.activeTexture0,
        .bindTexture s.lastName,
        .texParameterf .min_filter .linear,
        .texParameterf .mag_filter .nearest,
        .texParameterf .wrap_s .clamp_to_edge,
        .texParameterf .wrap_t .clamp_to_edge,
        .vertexAttribPointer .vertex_coords,
        .vertexAttribPointer .tex_coords,
        .drawArrays (3 * s.bufSize)])
  else
    ({ s with bufSize := 0 }, [])

/-- The append tail of `draw_textures_item` (lines 93–127): advance
`bufSize` by two slots, compute the normalized texture coordinates, and
write the two triangle entries `o` (at `bufSize - 2`) and `o2` (at
`bufSize - 1`) with the fixed texcoord combinations and the transformed
destination corners. -/
def dt_append (model_view : matrix_3x3) (src_width src_height : Int)
    (src dest : rect_2d) (s : DTState) : DTState :=
  let bufSize := s.bufSize + 2
  let sMin := src.x / (src_width : ℚ)
  let tMin := src.y / (src_height : ℚ)
  let sMax := (src.x + src.width) / (src_width : ℚ)
  let tMax := (src.y + src.height) / (src_height : ℚ)
  let (x1, y1, x2, y2, x3, y3, x4, y4) := matrix_3x3_multiply model_view dest
  let o : bufobj :=
    { srcX1 := sMin, srcY1 := tMax, destX1 := x4, destY1 := y4,
      srcX2 := sMax, srcY2 := tMax, destX2 := x3, destY2 := y3,
      srcX3 := sMin, srcY3 := tMin, destX3 := x1, destY3 := y1 }
  let o2 : bufobj :=
    { srcX1 := sMax, srcY1 := tMax, destX1 := x3, destY1 := y3,
      srcX2 := sMax, srcY2 := tMin, destX2 := x2, destY2 := y2,
      srcX3 := sMin, srcY3 := tMin, destX3 := x1, destY3 := y1 }
  { s with
    bufSize := bufSize,
    buffer := fun i =>
      if i = bufSize - 2 then o
      else if i = bufSize - 1 then o2
      else s.buffer i }

/-- `draw_textures_item` (lines 74–128): drop the request when the clip
rectangle is degenerate; otherwise flush first when the texture handle,
capacity headroom, opacity, composite operation, filter color or filter
type demands it (adopting the new state fields after the flush), then
append the quad.  Returns the new state and the GL trace emitted by the
flush, if any. -/
def draw_textures_item (use_single_shader : Bool) (model_view : matrix_3x3)
    (name : Int) (src_width src_height : Int) (orig_width orig_height : Int)
    (src dest clip : rect_2d) (opacity : ℚ) (composite_op : CompositeOp)
    (filter_color : rgba) (filter_type : FilterType) (s : DTState) :
    DTState × List GLCmd :=
  if clip.height = 0 ∨ clip.width = 0 then
    (s, [])
  else
    let (s1, out) :=
      if name ≠ s.lastName ∨ s.bufSize + 2 ≥ MAX_BUFFER_SIZE ∨
          s.lastOpacity ≠ opacity ∨ composite_op ≠ s.last_composite_op ∨
          rgba_equals s.last_filter_color filter_color = false ∨
          s.last_filter_type ≠ filter_type then
        let (sf, out) := draw_textures_flush use_single_shader s
        ({ sf with
           lastName := name,
           lastOpacity := opacity,
           last_composite_op := composite_op,
           last_filter_color :=
             { r := filter_color.r, g := filter_color.g,
               b := filter_color.b, a := filter_color.a },
           last_filter_type := filter_type }, out)
      else
        (s, [])
    (dt_append model_view src_width src_height src dest s1, out)

/-- Spec-side definition (for comparison with `blend_factors`): the
composite-operation → (source-factor, destination-factor) table exactly
as the spec's §6 table states it, with lighter / xor / copy / default
falling back to the source-over pair. -/
def spec_blend_pair : CompositeOp → BlendFactor × BlendFactor
  | .source_atop => (.gl_dst_alpha, .gl_one_minus_src_alpha)
  | .source_in => (.gl_dst_alpha, .gl_zero)
  | .source_out => (.gl_one_minus_dst_alpha, .gl_zero)
  | .source_over => (.gl_one, .gl_one_minus_src_alpha)
  | .destination_atop => (.gl_dst_alpha, .gl_src_alpha)
  | .destination_in => (.gl_zero, .gl_src_alpha)
  | .destination_out => (.gl_one_minus_src_alpha, .gl_one_minus_src_alpha)
  | .destination_over => (.gl_dst_alpha, .gl_src_alpha)
  | _ => (.gl_one, .gl_one_minus_src_alpha)

/-- One external call into the component: a submit with its full
argument list, or an explicit flush. -/
inductive Op where
  | item (model_view : matrix_3x3) (name src_width src_height : Int)
      (orig_width orig_height : Int) (src dest clip : rect_2d)
      (opacity : ℚ) (composite_op : CompositeOp) (filter_color : rgba)
      (filter_type : FilterType)
  | flush

/-- Apply one external call to the state (discarding the GL trace). -/
def stepOp (use_single_shader : Bool) : Op → DTState → DTState
  | .item mv name sw sh ow oh src dest clip op cop fc ft, s =>
      (draw_textures_item use_single_shader mv name sw sh ow oh src dest clip
        op cop fc ft s).1
  | .flush, s => (draw_textures_flush use_single_shader s).1

/-- Run a sequence of external calls from a given state. -/
def runOps (use_single_shader : Bool) (ops : List Op) (s : DTState) : DTState :=
  ops.foldl (fun t o => stepOp use_single_shader o t) s

/-- A concrete identity model-view transform, for concrete runs. -/
def mv0 : matrix_3x3 := ⟨1, 0, 0, 0, 1, 0, 0, 0, 1⟩

/-- A concrete source rectangle, for concrete runs. -/
def src0 : rect_2d := ⟨0, 0, 100, 200⟩

/-- A concrete destination rectangle, for concrete runs. -/
def dest0 : rect_2d := ⟨0, 0, 10, 10⟩

/-- A concrete non-degenerate clip rectangle, for concrete runs. -/
def clip0 : rect_2d := ⟨0, 0, 5, 5⟩

/-- A concrete filter color, for concrete runs. -/
def fc0 : rgba := ⟨1, 1, 1, 1⟩

/-- One fixed submit: always the same state tuple (texture 7, opacity 1,
source-over, `fc0`, no filter) and a non-degenerate clip. -/
def submit_same (s : DTState) : DTState × List GLCmd :=
  draw_textures_item false mv0 7 100 200 0 0 src0 dest0 clip0 1
    .source_over fc0 .filter_none s

/-- Iterate `submit_same` n times, keeping only the state. -/
def iterSubmit : Nat → DTState → DTState
  | 0, s => s
  | n + 1, s => iterSubmit n (submit_same s).1

/-- The state's "last known" tuple equals the tuple that `submit_same`
always carries. -/
def FieldsMatch (s : DTState) : Prop :=
  s.lastName = 7 ∧ s.lastOpacity = 1 ∧ s.last_composite_op = .source_over ∧
    s.last_filter_color = fc0 ∧ s.last_filter_type = .filter_none

/-- A degenerate clip rectangle (zero width), for concrete runs. -/
def clipDeg : rect_2d := ⟨0, 0, 0, 7⟩

/-- The three texture-coordinate pairs of one buffered triangle entry. -/
def texcoords (b : bufobj) : (ℚ × ℚ) × (ℚ × ℚ) × (ℚ × ℚ) :=
  ((b.srcX1, b.srcY1), (b.srcX2, b.srcY2), (b.srcX3, b.srcY3))

/-- The spec's concrete source rectangle (10, 20, 30, 40). -/
def srcQ : rect_2d := ⟨10, 20, 30, 40⟩

/-- The state after submitting `srcQ` over a 100×200 texture from the
initial state. -/
def sW : DTState :=
  (draw_textures_item false mv0 7 100 200 0 0 srcQ dest0 clip0 1
    .source_over fc0 .filter_none initState).1

/-- A concrete non-empty batch whose composite operation is
destination-in. -/
def sBatchDin : DTState :=
  { initState with bufSize := 2, lastName := 7,
                   last_composite_op := .destination_in }

/-- A concrete batch whose five "last known" fields equal the tuple
carried by `submit_same`, with room in the buffer. -/
def sMatch : DTState :=
  { initState with bufSize := 2, lastName := 7,
                   last_composite_op := .source_over,
                   last_filter_color := fc0,
                   last_filter_type := .filter_none }

/-- A concrete state with a non-empty buffer, for concrete runs. -/
def sNonEmpty : DTState :=
  { initState with bufSize := 2, lastName := 7 }

/-- A concrete state with a non-empty buffer and zero opacity. -/
def sTransparent : DTState :=
  { initState with bufSize := 2, lastName := 7, lastOpacity := 0 }

/-- A concrete state with a non-empty buffer and an unrecognized filter
type (the int value 5 is none of the three named filter values). -/
def sNoFilter : DTState :=
  { initState with bufSize := 2, lastName := 7,
                   last_filter_type := .other 5 }

lemma flush_empty (uss : Bool) (s : DTState) (h : s.bufSize ≤ 0) :
    draw_textures_flush uss s = (s, []) := by
  unfold draw_textures_flush
  rw [if_pos h]

lemma flush_active (uss : Bool) (s : DTState) (h1 : 0 < s.bufSize)
    (h2 : 0 < s.lastOpacity) :
    draw_textures_flush uss s =
      ({ s with bufSize := 0 },
       .blendFunc (blend_factors s.last_composite_op).1
           (blend_factors s.last_composite_op).2 ::
         shader_cmds uss s ++
         [.activeTexture0,
          .bindTexture s.lastName,
          .texParameterf .min_filter .linear,
          .texParameterf .mag_filter .nearest,
          .texParameterf .wrap_s .clamp_to_edge,
          .texParameterf .wrap_t .clamp_to_edge,
          .vertexAttribPointer .vertex_coords,
          .vertexAttribPointer .tex_coords,
          .drawArrays (3 * s.bufSize)]) := by
  unfold draw_textures_flush
  rw [if_neg (not_le.mpr h1), if_pos h2]

lemma flush_fst (uss : Bool) (s : DTState) :
    (draw_textures_flush uss s).1 =
      if s.bufSize ≤ 0 then s else { s with bufSize := 0 } := by
  unfold draw_textures_flush
  split
  · rfl
  · split <;> rfl

lemma item_degenerate (uss : Bool) (mv : matrix_3x3) (name sw sh ow oh : Int)
    (src dest clip : rect_2d) (op : ℚ) (cop : CompositeOp) (fc : rgba)
    (ft : FilterType) (s : DTState)
    (hclip : clip.height = 0 ∨ clip.width = 0) :
    draw_textures_item uss mv name sw sh ow oh src dest clip op cop fc ft s =
      (s, []) := by
  unfold draw_textures_item
  rw [if_pos hclip]

lemma item_no_trigger (uss : Bool) (mv : matrix_3x3) (name sw sh ow oh : Int)
    (src dest clip : rect_2d) (op : ℚ) (cop : CompositeOp) (fc : rgba)
    (ft : FilterType) (s : DTState)
    (hclip : ¬(clip.height = 0 ∨ clip.width = 0))
    (hcond : ¬(name ≠ s.lastName ∨ s.bufSize + 2 ≥ MAX_BUFFER_SIZE ∨
      s.lastOpacity ≠ op ∨ cop ≠ s.last_composite_op ∨
      rgba_equals s.last_filter_color fc = false ∨
      s.last_filter_type ≠ ft)) :
    draw_textures_item uss mv name sw sh ow oh src dest clip op cop fc ft s =
      (dt_append mv sw sh src dest s, []) := by
  unfold draw_textures_item
  rw [if_neg hclip, if_neg hcond]

lemma item_trigger (uss : Bool) (mv : matrix_3x3) (name sw sh ow oh : Int)
    (src dest clip : rect_2d) (op : ℚ) (cop : CompositeOp) (fc : rgba)
    (ft : FilterType) (s : DTState)
    (hclip : ¬(clip.height = 0 ∨ clip.width = 0))
    (hcond : name ≠ s.lastName ∨ s.bufSize + 2 ≥ MAX_BUFFER_SIZE ∨
      s.lastOpacity ≠ op ∨ cop ≠ s.last_composite_op ∨
      rgba_equals s.last_filter_color fc = false ∨
      s.last_filter_type ≠ ft) :
    draw_textures_item uss mv name sw sh ow oh src dest clip op cop fc ft s =
      (dt_append mv sw sh src dest
         { (draw_textures_flush uss s).1 with
           lastName := name, lastOpacity := op, last_composite_op := cop,
           last_filter_color := fc, last_filter_type := ft },
       (draw_textures_flush uss s).2) := by
  unfold draw_textures_item
  rw [if_neg hclip, if_pos hcond]

/-- C4: a submit whose clip rectangle has zero width or zero height
returns with no observable effect: the state (buffer length, buffer
contents and all five "last known" fields) is returned unchanged and no
GL command (in particular no flush output) is emitted. -/
theorem claim_C4 (uss : Bool) (mv : matrix_3x3) (name sw sh ow oh : Int)
    (src dest clip : rect_2d) (op : ℚ) (cop : CompositeOp) (fc : rgba)
    (ft : FilterType) (s : DTState)
    (h : clip.width = 0 ∨ clip.height = 0) :
    draw_textures_item uss mv name sw sh ow oh src dest clip op cop fc ft s =
      (s, []) :=
  item_degenerate uss mv name sw sh ow oh src dest clip op cop fc ft s h.symm

/-- Witness for C4 at a concrete degenerate clip. -/
theorem claim_C4_witness :
    (clipDeg.width = 0 ∨ clipDeg.height = 0) ∧
    draw_textures_item false mv0 7 100 200 0 0 src0 dest0 clipDeg 1
        .source_over fc0 .filter_none initState = (initState, []) :=
  ⟨Or.inl rfl,
   claim_C4 false mv0 7 100 200 0 0 src0 dest0 clipDeg 1 .source_over fc0
     .filter_none initState (Or.inl rfl)⟩

/-- C7: a flush on a non-empty buffer whose batch opacity is ≤ 0 resets
the buffer length to zero and issues no GL command at all (no blend
configuration, no shader bind, no texture bind, no draw call). -/
theorem claim_C7 (uss : Bool) (s : DTState) (h1 : 0 < s.bufSize)
    (h2 : s.lastOpacity ≤ 0) :
    draw_textures_flush uss s = ({ s with bufSize := 0 }, []) := by
  unfold draw_textures_flush
  rw [if_neg (not_le.mpr h1), if_neg (not_lt.mpr h2)]

/-- Witness for C7 at a concrete fully transparent non-empty batch. -/
theorem claim_C7_witness :
    (0 < sTransparent.bufSize ∧ sTransparent.lastOpacity ≤ 0) ∧
    draw_textures_flush true sTransparent =
      ({ sTransparent with bufSize := 0 }, []) :=
  ⟨⟨by decide, by decide⟩,
   claim_C7 true sTransparent (by decide) (by decide)⟩

/-- C8: flush only resets the buffer length: the five "last known"
state fields and the buffer contents are unchanged by flush (in every
branch), and the appending step of submit also leaves the five fields
unchanged — they are only written by the trigger branch of a submit. -/
theorem claim_C8 (uss : Bool) (s : DTState) (mv : matrix_3x3) (sw sh : Int)
    (src dest : rect_2d) :
    ((draw_textures_flush uss s).1.lastName = s.lastName ∧
     (draw_textures_flush uss s).1.lastOpacity = s.lastOpacity ∧
     (draw_textures_flush uss s).1.last_composite_op = s.last_composite_op ∧
     (draw_textures_flush uss s).1.last_filter_color = s.last_filter_color ∧
     (draw_textures_flush uss s).1.last_filter_type = s.last_filter_type ∧
     (draw_textures_flush uss s).1.buffer = s.buffer) ∧
    (0 < s.bufSize → (draw_textures_flush uss s).1.bufSize = 0) ∧
    ((dt_append mv sw sh src dest s).lastName = s.lastName ∧
     (dt_append mv sw sh src dest s).lastOpacity = s.lastOpacity ∧
     (dt_append mv sw sh src dest s).last_composite_op = s.last_composite_op ∧
     (dt_append mv sw sh src dest s).last_filter_color = s.last_filter_color ∧
     (dt_append mv sw sh src dest s).last_filter_type = s.last_filter_type) := by
  refine ⟨?_, ?_, rfl, rfl, rfl, rfl, rfl⟩
  · rw [flush_fst]
    by_cases hb : s.bufSize ≤ 0
    · rw [if_pos hb]
      exact ⟨rfl, rfl, rfl, rfl, rfl, rfl⟩
    · rw [if_neg hb]
      exact ⟨rfl, rfl, rfl, rfl, rfl, rfl⟩
  · intro h
    rw [flush_fst, if_neg (not_le.mpr h)]

/-- Witness for C8 at a concrete non-empty batch. -/
theorem claim_C8_witness :
    0 < sNonEmpty.bufSize ∧
    (draw_textures_flush false sNonEmpty).1.bufSize = 0 ∧
    (draw_textures_flush false sNonEmpty).1.lastName = sNonEmpty.lastName ∧
    (draw_textures_flush false sNonEmpty).1.lastOpacity =
      sNonEmpty.lastOpacity :=
  ⟨by decide,
   (claim_C8 false sNonEmpty mv0 100 200 src0 dest0).2.1 (by decide),
   (claim_C8 false sNonEmpty mv0 100 200 src0 dest0).1.1,
   (claim_C8 false sNonEmpty mv0 100 200 src0 dest0).1.2.1⟩

/-- C9: a flush on an empty buffer is a complete no-op (state returned
unchanged, no GL command), and flush is idempotent: immediately after
any flush the buffer is empty, so a second flush with no submit in
between is a no-op. -/
theorem claim_C9 (uss : Bool) (s : DTState) :
    (s.bufSize ≤ 0 → draw_textures_flush uss s = (s, [])) ∧
    draw_textures_flush uss (draw_textures_flush uss s).1 =
      ((draw_textures_flush uss s).1, []) := by
  constructor
  · exact fun h => flush_empty uss s h
  · apply flush_empty
    rw [flush_fst]
    by_cases hb : s.bufSize ≤ 0
    · rw [if_pos hb]
      exact hb
    · rw [if_neg hb]

/-- Witness for C9 at the initial (empty-buffer) state. -/
theorem claim_C9_witness :
    initState.bufSize ≤ 0 ∧
    draw_textures_flush false initState = (initState, []) ∧
    draw_textures_flush false (draw_textures_flush false initState).1 =
      ((draw_textures_flush false initState).1, []) :=
  ⟨by decide, (claim_C9 false initState).1 (by decide),
   (claim_C9 false initState).2⟩

lemma blend_factors_eq_spec (cop : CompositeOp) :
    blend_factors cop = spec_blend_pair cop := by
  cases cop <;> rfl

/-- C2: a flush on a non-empty batch with positive opacity configures
the blend factors first, and the pair is exactly the spec's §6 table
(with lighter, xor, copy and every unrecognized operation falling back
to the source-over pair), as captured by `spec_blend_pair`. -/
theorem claim_C2 (uss : Bool) (s : DTState) (h1 : 0 < s.bufSize)
    (h2 : 0 < s.lastOpacity) :
    (draw_textures_flush uss s).2.head? =
      some (.blendFunc (spec_blend_pair s.last_composite_op).1
        (spec_blend_pair s.last_composite_op).2) := by
  rw [flush_active uss s h1 h2, blend_factors_eq_spec]
  rfl

/-- Witness for C2 at a concrete destination-in batch: the configured
pair is (0, src-alpha). -/
theorem claim_C2_witness :
    (0 < sBatchDin.bufSize ∧ 0 < sBatchDin.lastOpacity) ∧
    (draw_textures_flush false sBatchDin).2.head? =
      some (.blendFunc .gl_zero .gl_src_alpha) :=
  ⟨⟨by decide, by decide⟩, claim_C2 false sBatchDin (by decide) (by decide)⟩

/-- C10: with the single-shader toggle off and an unrecognized filter
type, a flush on a non-empty batch with positive opacity still sets the
blend function, binds the texture and issues the draw call, but emits
no shader bind and no uniform write (the shader-selection block has no
fallback branch). -/
theorem claim_C10 (s : DTState) (code : Int) (h1 : 0 < s.bufSize)
    (h2 : 0 < s.lastOpacity) (hf : s.last_filter_type = .other code) :
    shader_cmds false s = [] ∧
    (draw_textures_flush false s).2 =
      [.blendFunc (blend_factors s.last_composite_op).1
         (blend_factors s.last_composite_op).2,
       .activeTexture0,
       .bindTexture s.lastName,
       .texParameterf .min_filter .linear,
       .texParameterf .mag_filter .nearest,
       .texParameterf .wrap_s .clamp_to_edge,
       .texParameterf .wrap_t .clamp_to_edge,
       .vertexAttribPointer .vertex_coords,
       .vertexAttribPointer .tex_coords,
       .drawArrays (3 * s.bufSize)] ∧
    (draw_textures_flush false s).1 = { s with bufSize := 0 } := by
  have hsc : shader_cmds false s = [] := by
    simp [shader_cmds, hf]
  refine ⟨hsc, ?_, ?_⟩
  · rw [flush_active false s h1 h2, hsc]
    rfl
  · rw [flush_active false s h1 h2]

/-- Witness for C10 at a concrete batch with filter-type int 5. -/
theorem claim_C10_witness :
    (0 < sNoFilter.bufSize ∧ 0 < sNoFilter.lastOpacity ∧
     sNoFilter.last_filter_type = .other 5) ∧
    (draw_textures_flush false sNoFilter).2 =
      [.blendFunc .gl_one .gl_one_minus_src_alpha,
       .activeTexture0,
       .bindTexture 7,
       .texParameterf .min_filter .linear,
       .texParameterf .mag_filter .nearest,
       .texParameterf .wrap_s .clamp_to_edge,
       .texParameterf .wrap_t .clamp_to_edge,
       .vertexAttribPointer .vertex_coords,
       .vertexAttribPointer .tex_coords,
       .drawArrays 6] :=
  ⟨⟨by decide, by decide, rfl⟩,
   by
    have h := (claim_C10 sNoFilter 5 (by decide) (by decide) rfl).2.1
    rw [h]
    rfl⟩

lemma dt_append_bufSize (mv : matrix_3x3) (sw sh : Int) (src dest : rect_2d)
    (s : DTState) :
    (dt_append mv sw sh src dest s).bufSize = s.bufSize + 2 := rfl

lemma dt_append_texcoords (mv : matrix_3x3) (sw sh : Int)
    (src dest : rect_2d) (s : DTState) :
    texcoords ((dt_append mv sw sh src dest s).buffer s.bufSize) =
      ((src.x / (sw : ℚ), (src.y + src.height) / (sh : ℚ)),
       ((src.x + src.width) / (sw : ℚ), (src.y + src.height) / (sh : ℚ)),
       (src.x / (sw : ℚ), src.y / (sh : ℚ))) ∧
    texcoords ((dt_append mv sw sh src dest s).buffer (s.bufSize + 1)) =
      (((src.x + src.width) / (sw : ℚ), (src.y + src.height) / (sh : ℚ)),
       ((src.x + src.width) / (sw : ℚ), src.y / (sh : ℚ)),
       (src.x / (sw : ℚ), src.y / (sh : ℚ))) := by
  have e1 : s.bufSize + 2 - 2 = s.bufSize := by ring
  have e2 : s.bufSize + 2 - 1 = s.bufSize + 1 := by ring
  have ne1 : s.bufSize + 1 ≠ s.bufSize := by omega
  constructor <;>
    simp [dt_append, matrix_3x3_multiply, texcoords, e1, e2, ne1]

lemma item_fst_append (uss : Bool) (mv : matrix_3x3)
    (name sw sh ow oh : Int) (src dest clip : rect_2d) (op : ℚ)
    (cop : CompositeOp) (fc : rgba) (ft : FilterType) (s : DTState)
    (hclip : ¬(clip.height = 0 ∨ clip.width = 0)) :
    ∃ s1 : DTState,
      (draw_textures_item uss mv name sw sh ow oh src dest clip op cop fc ft
        s).1 = dt_append mv sw sh src dest s1 := by
  by_cases hcond : name ≠ s.lastName ∨ s.bufSize + 2 ≥ MAX_BUFFER_SIZE ∨
      s.lastOpacity ≠ op ∨ cop ≠ s.last_composite_op ∨
      rgba_equals s.last_filter_color fc = false ∨
      s.last_filter_type ≠ ft
  · exact ⟨_, by
      rw [item_trigger uss mv name sw sh ow oh src dest clip op cop fc ft s
        hclip hcond]⟩
  · exact ⟨s, by
      rw [item_no_trigger uss mv name sw sh ow oh src dest clip op cop fc ft s
        hclip hcond]⟩

/-- C5: every appended quad carries the normalized texture coordinates
sMin = srcX/texW, tMin = srcY/texH, sMax = (srcX+srcW)/texW,
tMax = (srcY+srcH)/texH, its first triangle entry holding
(sMin,tMax), (sMax,tMax), (sMin,tMin) and its second
(sMax,tMax), (sMax,tMin), (sMin,tMin). -/
theorem claim_C5 (uss : Bool) (mv : matrix_3x3) (name sw sh ow oh : Int)
    (src dest clip : rect_2d) (op : ℚ) (cop : CompositeOp) (fc : rgba)
    (ft : FilterType) (s : DTState)
    (hw : clip.width ≠ 0) (hh : clip.height ≠ 0) :
    texcoords
        ((draw_textures_item uss mv name sw sh ow oh src dest clip op cop fc
            ft s).1.buffer
          ((draw_textures_item uss mv name sw sh ow oh src dest clip op cop fc
              ft s).1.bufSize - 2)) =
      ((src.x / (sw : ℚ), (src.y + src.height) / (sh : ℚ)),
       ((src.x + src.width) / (sw : ℚ), (src.y + src.height) / (sh : ℚ)),
       (src.x / (sw : ℚ), src.y / (sh : ℚ))) ∧
    texcoords
        ((draw_textures_item uss mv name sw sh ow oh src dest clip op cop fc
            ft s).1.buffer
          ((draw_textures_item uss mv name sw sh ow oh src dest clip op cop fc
              ft s).1.bufSize - 1)) =
      (((src.x + src.width) / (sw : ℚ), (src.y + src.height) / (sh : ℚ)),
       ((src.x + src.width) / (sw : ℚ), src.y / (sh : ℚ)),
       (src.x / (sw : ℚ), src.y / (sh : ℚ))) := by
  have hclip : ¬(clip.height = 0 ∨ clip.width = 0) := by
    intro h
    cases h with
    | inl h => exact hh h
    | inr h => exact hw h
  obtain ⟨s1, hs1⟩ :=
    item_fst_append uss mv name sw sh ow oh src dest clip op cop fc ft s hclip
  rw [hs1, dt_append_bufSize]
  have e1 : s1.bufSize + 2 - 2 = s1.bufSize := by ring
  have e2 : s1.bufSize + 2 - 1 = s1.bufSize + 1 := by ring
  rw [e1, e2]
  exact dt_append_texcoords mv sw sh src dest s1

/-- Witness for C5: the spec's concrete instance, source rectangle
(10, 20, 30, 40) over a 100×200 texture gives sMin = 0.1, tMin = 0.1,
sMax = 0.4, tMax = 0.3 and the six fixed texcoord pairs. -/
theorem claim_C5_witness :
    (clip0.width ≠ 0 ∧ clip0.height ≠ 0) ∧
    texcoords (sW.buffer (sW.bufSize - 2)) =
      ((0.1, 0.3), (0.4, 0.3), (0.1, 0.1)) ∧
    texcoords (sW.buffer (sW.bufSize - 1)) =
      ((0.4, 0.3), (0.4, 0.1), (0.1, 0.1)) := by
  refine ⟨⟨by decide, by decide⟩, ?_, ?_⟩
  · have h := (claim_C5 false mv0 7 100 200 0 0 srcQ dest0 clip0 1
      .source_over fc0 .filter_none initState (by decide) (by decide)).1
    rw [show texcoords (sW.buffer (sW.bufSize - 2)) = _ from h]
    norm_num [srcQ]
  · have h := (claim_C5 false mv0 7 100 200 0 0 srcQ dest0 clip0 1
      .source_over fc0 .filter_none initState (by decide) (by decide)).2
    rw [show texcoords (sW.buffer (sW.bufSize - 1)) = _ from h]
    norm_num [srcQ]

lemma rgba_equals_false_iff (c1 c2 : rgba) :
    rgba_equals c1 c2 = false ↔
      (c1.r ≠ c2.r ∨ c1.g ≠ c2.g ∨ c1.b ≠ c2.b ∨ c1.a ≠ c2.a) := by
  simp only [rgba_equals, decide_eq_false_iff_not, not_and_or]

lemma rgba_equals_self (c : rgba) : rgba_equals c c = true := by
  simp [rgba_equals]

lemma rgba_equals_true_iff (c1 c2 : rgba) :
    rgba_equals c1 c2 = true ↔ c1 = c2 := by
  simp only [rgba_equals, decide_eq_true_eq]
  constructor
  · rintro ⟨h1, h2, h3, h4⟩
    cases c1
    cases c2
    simp_all
  · rintro rfl
    exact ⟨rfl, rfl, rfl, rfl⟩

/-- C1: for a submit with a non-degenerate clip, a flush happens before
the quad is appended exactly when the texture handle differs, the
buffer lacks headroom for one more quad, the opacity differs
(bit-exact), the composite operation differs, the filter color differs
component-wise, or the filter kind differs; the flush consumes the
previous state `s`, and on trigger all five "last known" fields are set
to the new request's values before appending. -/
theorem claim_C1 (uss : Bool) (mv : matrix_3x3) (name sw sh ow oh : Int)
    (src dest clip : rect_2d) (op : ℚ) (cop : CompositeOp) (fc : rgba)
    (ft : FilterType) (s : DTState)
    (hw : clip.width ≠ 0) (hh : clip.height ≠ 0) :
    draw_textures_item uss mv name sw sh ow oh src dest clip op cop fc ft s =
      if name ≠ s.lastName ∨ s.bufSize + 2 ≥ MAX_BUFFER_SIZE ∨
          s.lastOpacity ≠ op ∨ cop ≠ s.last_composite_op ∨
          (s.last_filter_color.r ≠ fc.r ∨ s.last_filter_color.g ≠ fc.g ∨
           s.last_filter_color.b ≠ fc.b ∨ s.last_filter_color.a ≠ fc.a) ∨
          s.last_filter_type ≠ ft then
        (dt_append mv sw sh src dest
           { (draw_textures_flush uss s).1 with
             lastName := name, lastOpacity := op, last_composite_op := cop,
             last_filter_color := fc, last_filter_type := ft },
         (draw_textures_flush uss s).2)
      else
        (dt_append mv sw sh src dest s, []) := by
  have hclip : ¬(clip.height = 0 ∨ clip.width = 0) := by
    intro h
    cases h with
    | inl h => exact hh h
    | inr h => exact hw h
  have hiff : (name ≠ s.lastName ∨ s.bufSize + 2 ≥ MAX_BUFFER_SIZE ∨
      s.lastOpacity ≠ op ∨ cop ≠ s.last_composite_op ∨
      rgba_equals s.last_filter_color fc = false ∨
      s.last_filter_type ≠ ft) ↔
      (name ≠ s.lastName ∨ s.bufSize + 2 ≥ MAX_BUFFER_SIZE ∨
       s.lastOpacity ≠ op ∨ cop ≠ s.last_composite_op ∨
       (s.last_filter_color.r ≠ fc.r ∨ s.last_filter_color.g ≠ fc.g ∨
        s.last_filter_color.b ≠ fc.b ∨ s.last_filter_color.a ≠ fc.a) ∨
       s.last_filter_type ≠ ft) := by
    simp only [rgba_equals_false_iff]
  by_cases hcond : name ≠ s.lastName ∨ s.bufSize + 2 ≥ MAX_BUFFER_SIZE ∨
      s.lastOpacity ≠ op ∨ cop ≠ s.last_composite_op ∨
      rgba_equals s.last_filter_color fc = false ∨
      s.last_filter_type ≠ ft
  · rw [item_trigger uss mv name sw sh ow oh src dest clip op cop fc ft s
        hclip hcond, if_pos (hiff.mp hcond)]
  · rw [item_no_trigger uss mv name sw sh ow oh src dest clip op cop fc ft s
        hclip hcond, if_neg (fun h => hcond (hiff.mpr h))]

/-- Witness for C1: from the initial state (batched handle −1) a submit
with texture 7 triggers the flush-then-adopt-then-append path. -/
theorem claim_C1_witness :
    (clip0.width ≠ 0 ∧ clip0.height ≠ 0) ∧
    draw_textures_item false mv0 7 100 200 0 0 src0 dest0 clip0 1
        .source_over fc0 .filter_none initState =
      (dt_append mv0 100 200 src0 dest0
         { (draw_textures_flush false initState).1 with
           lastName := 7, lastOpacity := 1, last_composite_op := .source_over,
           last_filter_color := fc0, last_filter_type := .filter_none },
       (draw_textures_flush false initState).2) := by
  refine ⟨⟨by decide, by decide⟩, ?_⟩
  rw [claim_C1 false mv0 7 100 200 0 0 src0 dest0 clip0 1 .source_over fc0
      .filter_none initState (by decide) (by decide),
    if_pos (Or.inl (show (7 : Int) ≠ initState.lastName by decide))]

lemma flush_bufSize_eq (uss : Bool) (s : DTState) (h : 0 ≤ s.bufSize) :
    (draw_textures_flush uss s).1.bufSize = 0 := by
  rw [flush_fst]
  by_cases hb : s.bufSize ≤ 0
  · rw [if_pos hb]
    exact le_antisymm hb h
  · rw [if_neg hb]

lemma inv_step (uss : Bool) (o : Op) (s : DTState)
    (h : 0 ≤ s.bufSize ∧ s.bufSize ≤ MAX_BUFFER_SIZE) :
    0 ≤ (stepOp uss o s).bufSize ∧
      (stepOp uss o s).bufSize ≤ MAX_BUFFER_SIZE := by
  have hM : MAX_BUFFER_SIZE = 1024 := rfl
  cases o with
  | flush =>
      show 0 ≤ (draw_textures_flush uss s).1.bufSize ∧
        (draw_textures_flush uss s).1.bufSize ≤ MAX_BUFFER_SIZE
      rw [flush_bufSize_eq uss s h.1, hM]
      omega
  | item mv name sw sh ow oh src dest clip op cop fc ft =>
      show 0 ≤ (draw_textures_item uss mv name sw sh ow oh src dest clip op
          cop fc ft s).1.bufSize ∧
        (draw_textures_item uss mv name sw sh ow oh src dest clip op cop fc
          ft s).1.bufSize ≤ MAX_BUFFER_SIZE
      by_cases hclip : clip.height = 0 ∨ clip.width = 0
      · rw [item_degenerate uss mv name sw sh ow oh src dest clip op cop fc
          ft s hclip]
        exact h
      · by_cases hcond : name ≠ s.lastName ∨ s.bufSize + 2 ≥ MAX_BUFFER_SIZE ∨
            s.lastOpacity ≠ op ∨ cop ≠ s.last_composite_op ∨
            rgba_equals s.last_filter_color fc = false ∨
            s.last_filter_type ≠ ft
        · rw [item_trigger uss mv name sw sh ow oh src dest clip op cop fc ft
            s hclip hcond]
          show 0 ≤ (draw_textures_flush uss s).1.bufSize + 2 ∧
            (draw_textures_flush uss s).1.bufSize + 2 ≤ MAX_BUFFER_SIZE
          rw [flush_bufSize_eq uss s h.1, hM]
          omega
        · rw [item_no_trigger uss mv name sw sh ow oh src dest clip op cop fc
            ft s hclip hcond]
          show 0 ≤ s.bufSize + 2 ∧ s.bufSize + 2 ≤ MAX_BUFFER_SIZE
          have hroom : ¬(s.bufSize + 2 ≥ MAX_BUFFER_SIZE) :=
            fun hge => hcond (Or.inr (Or.inl hge))
          rw [hM]
          rw [hM] at hroom
          omega

/-- C3: in every state reachable from the initial empty state by any
sequence of submit and flush calls, the buffer length satisfies
0 ≤ bufSize ≤ MAX_BUFFER_SIZE: the headroom check flushes before any
append could pass capacity, and flush resets the length to zero. -/
theorem claim_C3 (uss : Bool) (ops : List Op) :
    0 ≤ (runOps uss ops initState).bufSize ∧
      (runOps uss ops initState).bufSize ≤ MAX_BUFFER_SIZE := by
  suffices h : ∀ s : DTState, 0 ≤ s.bufSize ∧ s.bufSize ≤ MAX_BUFFER_SIZE →
      0 ≤ (runOps uss ops s).bufSize ∧
        (runOps uss ops s).bufSize ≤ MAX_BUFFER_SIZE by
    exact h initState ⟨by decide, by decide⟩
  induction ops with
  | nil => exact fun s hs => hs
  | cons o rest ih => exact fun s hs => ih (stepOp uss o s) (inv_step uss o s hs)

lemma submit_same_no_flush (s : DTState) (hm : FieldsMatch s)
    (hroom : s.bufSize + 2 < MAX_BUFFER_SIZE) :
    submit_same s = (dt_append mv0 100 200 src0 dest0 s, []) := by
  unfold submit_same
  apply item_no_trigger
  · decide
  · intro hcond
    rcases hcond with h | h | h | h | h | h
    · exact h hm.1.symm
    · exact absurd h (not_le.mpr hroom)
    · exact h hm.2.1
    · exact h hm.2.2.1.symm
    · rw [hm.2.2.2.1.symm] at h
      rw [rgba_equals_self] at h
      exact Bool.noConfusion h
    · exact h hm.2.2.2.2

lemma iterSubmit_fields (n : Nat) (s : DTState) (hm : FieldsMatch s)
    (h0 : 0 ≤ s.bufSize) (hroom : s.bufSize + 2 * (n : Int) ≤ 1022) :
    FieldsMatch (iterSubmit n s) ∧
      (iterSubmit n s).bufSize = s.bufSize + 2 * (n : Int) := by
  induction n generalizing s with
  | zero =>
      refine ⟨hm, ?_⟩
      show s.bufSize = s.bufSize + 2 * ((0 : Nat) : Int)
      omega
  | succ n ih =>
      have hroom1 : s.bufSize + 2 < MAX_BUFFER_SIZE := by
        have hM : MAX_BUFFER_SIZE = 1024 := rfl
        rw [hM]
        omega
      have hstep := submit_same_no_flush s hm hroom1
      have hfst : (submit_same s).1 = dt_append mv0 100 200 src0 dest0 s := by
        rw [hstep]
      have hm2 : FieldsMatch (dt_append mv0 100 200 src0 dest0 s) := hm
      have h02 : 0 ≤ (dt_append mv0 100 200 src0 dest0 s).bufSize := by
        rw [dt_append_bufSize]
        omega
      have hroom2 :
          (dt_append mv0 100 200 src0 dest0 s).bufSize + 2 * (n : Int) ≤
            1022 := by
        rw [dt_append_bufSize]
        omega
      obtain ⟨hm3, hb3⟩ :=
        ih (dt_append mv0 100 200 src0 dest0 s) hm2 h02 hroom2
      show FieldsMatch (iterSubmit n (submit_same s).1) ∧
        (iterSubmit n (submit_same s).1).bufSize = s.bufSize + 2 * ((n : Int) + 1)
      rw [hfst]
      refine ⟨hm3, ?_⟩
      rw [hb3, dt_append_bufSize]
      ring

/-- C6 (amended): for submits with non-degenerate clips carrying the
batch's identical state tuple, no flush occurs — provided the buffer
still has headroom for one more quad (a capacity-triggered flush can
occur between identical-tuple submits otherwise); and when any of the
five fields differs, exactly one flush occurs at that submit, its
output being precisely the one flush of the previous batch. -/
theorem claim_C6 (uss : Bool) (mv : matrix_3x3) (name sw sh ow oh : Int)
    (src dest clip : rect_2d) (op : ℚ) (cop : CompositeOp) (fc : rgba)
    (ft : FilterType) (s : DTState)
    (hw : clip.width ≠ 0) (hh : clip.height ≠ 0) :
    ((name = s.lastName ∧ op = s.lastOpacity ∧ cop = s.last_composite_op ∧
      fc = s.last_filter_color ∧ ft = s.last_filter_type ∧
      s.bufSize + 2 < MAX_BUFFER_SIZE) →
      draw_textures_item uss mv name sw sh ow oh src dest clip op cop fc ft
          s = (dt_append mv sw sh src dest s, [])) ∧
    ((name ≠ s.lastName ∨ op ≠ s.lastOpacity ∨ cop ≠ s.last_composite_op ∨
      fc ≠ s.last_filter_color ∨ ft ≠ s.last_filter_type) →
      draw_textures_item uss mv name sw sh ow oh src dest clip op cop fc ft
          s =
        (dt_append mv sw sh src dest
           { (draw_textures_flush uss s).1 with
             lastName := name, lastOpacity := op, last_composite_op := cop,
             last_filter_color := fc, last_filter_type := ft },
         (draw_textures_flush uss s).2)) := by
  have hclip : ¬(clip.height = 0 ∨ clip.width = 0) := by
    intro h
    cases h with
    | inl h => exact hh h
    | inr h => exact hw h
  constructor
  · rintro ⟨h1, h2, h3, h4, h5, h6⟩
    apply item_no_trigger uss mv name sw sh ow oh src dest clip op cop fc ft s
      hclip
    intro hcond
    rcases hcond with h | h | h | h | h | h
    · exact h h1
    · exact absurd h (not_le.mpr h6)
    · exact h h2.symm
    · exact h h3
    · rw [h4] at h
      rw [rgba_equals_self] at h
      exact Bool.noConfusion h
    · exact h h5.symm
  · intro hdiff
    apply item_trigger uss mv name sw sh ow oh src dest clip op cop fc ft s
      hclip
    rcases hdiff with h | h | h | h | h
    · exact Or.inl h
    · exact Or.inr (Or.inr (Or.inl (Ne.symm h)))
    · exact Or.inr (Or.inr (Or.inr (Or.inl h)))
    · refine Or.inr (Or.inr (Or.inr (Or.inr (Or.inl ?_))))
      cases hb : rgba_equals s.last_filter_color fc
      · rfl
      · exact absurd ((rgba_equals_true_iff s.last_filter_color fc).mp hb).symm
          h
    · exact Or.inr (Or.inr (Or.inr (Or.inr (Or.inr (Ne.symm h)))))

/-- Witness for C6 at concrete inputs: with a matching tuple and room,
a submit appends without flushing; changing the texture handle to 9
makes that submit flush exactly once. -/
theorem claim_C6_witness :
    (clip0.width ≠ 0 ∧ clip0.height ≠ 0) ∧
    draw_textures_item false mv0 7 100 200 0 0 src0 dest0 clip0 1
        .source_over fc0 .filter_none sMatch =
      (dt_append mv0 100 200 src0 dest0 sMatch, []) ∧
    draw_textures_item false mv0 9 100 200 0 0 src0 dest0 clip0 1
        .source_over fc0 .filter_none sMatch =
      (dt_append mv0 100 200 src0 dest0
         { (draw_textures_flush false sMatch).1 with
           lastName := 9, lastOpacity := 1, last_composite_op := .source_over,
           last_filter_color := fc0, last_filter_type := .filter_none },
       (draw_textures_flush false sMatch).2) :=
  ⟨⟨by decide, by decide⟩,
   (claim_C6 false mv0 7 100 200 0 0 src0 dest0 clip0 1 .source_over fc0
       .filter_none sMatch (by decide) (by decide)).1
     ⟨rfl, rfl, rfl, rfl, rfl, by decide⟩,
   (claim_C6 false mv0 9 100 200 0 0 src0 dest0 clip0 1 .source_over fc0
       .filter_none sMatch (by decide) (by decide)).2
     (Or.inl (by decide))⟩

/-- Counterexample to C6 as stated: 512 consecutive submits all
carrying the identical state tuple (those of `submit_same`), starting
from the initial state.  After the first submit and 510 further
identical submits the batch's five fields still equal the tuple
(`FieldsMatch`), yet the 512th identical submit emits a non-empty GL
trace — a flush occurred between identical-tuple submits, forced by the
capacity headroom check, which the claim omits. -/
theorem claim_C6_counterexample :
    FieldsMatch (iterSubmit 510 (submit_same initState).1) ∧
    (submit_same (iterSubmit 510 (submit_same initState).1)).2 ≠ [] := by
  have hs1 : (submit_same initState).1 =
      dt_append mv0 100 200 src0 dest0
        { (draw_textures_flush false initState).1 with
          lastName := 7, lastOpacity := 1, last_composite_op := .source_over,
          last_filter_color := fc0, last_filter_type := .filter_none } := by
    unfold submit_same
    rw [item_trigger false mv0 7 100 200 0 0 src0 dest0 clip0 1 .source_over
      fc0 .filter_none initState (by decide)
      (Or.inl (show (7 : Int) ≠ initState.lastName by decide))]
  have hm1 : FieldsMatch (submit_same initState).1 := by
    rw [hs1]
    exact ⟨rfl, rfl, rfl, rfl, rfl⟩
  have hflush0 : draw_textures_flush false initState = (initState, []) :=
    flush_empty false initState (by decide)
  have hb1 : (submit_same initState).1.bufSize = 2 := by
    rw [hs1, dt_append_bufSize, hflush0]
    decide
  have h510 := iterSubmit_fields 510 (submit_same initState).1 hm1
    (by rw [hb1]; decide) (by rw [hb1]; decide)
  have hbFull : (iterSubmit 510 (submit_same initState).1).bufSize = 1022 := by
    rw [h510.2, hb1]
    decide
  refine ⟨h510.1, ?_⟩
  have hpos : 0 < (iterSubmit 510 (submit_same initState).1).bufSize := by
    rw [hbFull]
    decide
  have hop : 0 < (iterSubmit 510 (submit_same initState).1).lastOpacity := by
    rw [h510.1.2.1]
    decide
  have hflushne : (draw_textures_flush false
      (iterSubmit 510 (submit_same initState).1)).2 ≠ [] := by
    rw [flush_active false (iterSubmit 510 (submit_same initState).1) hpos hop]
    simp
  have htrig := item_trigger false mv0 7 100 200 0 0 src0 dest0 clip0 1
    .source_over fc0 .filter_none (iterSubmit 510 (submit_same initState).1)
    (by decide) (Or.inr (Or.inl (by rw [hbFull]; decide)))
  show (draw_textures_item false mv0 7 100 200 0 0 src0 dest0 clip0 1
    .source_over fc0 .filter_none
    (iterSubmit 510 (submit_same initState).1)).2 ≠ []
  rw [htrig]
  dsimp only
  exact hflushne

end DrawTextures
